import Mathlib

/-!
Verification development for the Nexenta iSCSI volume driver
(source file cinder/volume/drivers/nexenta/iscsi.py, class NexentaISCSIDriver).

Modelling approach: the remote appliance (NMS) is represented by response
environments.  Every remote call issued by the code under scrutiny receives
its response (a value, or a fault message carried by a NexentaException) as
input data, and each modelled operation returns its outcome together with
the ordered list of remote calls it issued.  Python string operations that
the driver relies on (substring containment, startswith, split, lstrip,
str.index raising ValueError) are modelled exactly.
-/

/-- Exceptions that the driver code can raise or handle.  The constructor
nexenta stands for NexentaException carrying the raw appliance message;
volumeIsBusy and snapshotIsBusy stand for the cinder exceptions
VolumeIsBusy and SnapshotIsBusy, which are not subclasses of
NexentaException; valueError stands for a Python ValueError. -/
inductive PyExc
  | nexenta (msg : String)
  | volumeIsBusy (volume_name : String)
  | snapshotIsBusy (snapshot_name : String)
  | valueError
deriving DecidableEq

/-- Decides whether the first character list is a prefix of the second. -/
def charsPrefixOf : List Char → List Char → Bool
  | [], _ => true
  | _ :: _, [] => false
  | a :: as, b :: bs => a == b && charsPrefixOf as bs

/-- Decides whether sub occurs as a contiguous sublist of the second list. -/
def charsContain (sub : List Char) : List Char → Bool
  | [] => sub.isEmpty
  | b :: bs => charsPrefixOf sub (b :: bs) || charsContain sub bs

/-- Python substring containment test, written sub in s in the source. -/
def pyIn (sub s : String) : Bool := charsContain sub.data s.data

/-- Python s.startswith(p). -/
def pyStartswith (s p : String) : Bool := charsPrefixOf p.data s.data

/-- Python str.split(sep) on character lists: always returns at least one
segment, and one extra (possibly empty) segment per separator occurrence. -/
def splitChars (sep : Char) : List Char → List (List Char)
  | [] => [[]]
  | c :: cs =>
    if c == sep then [] :: splitChars sep cs
    else
      match splitChars sep cs with
      | [] => [[c]]
      | r :: rs => (c :: r) :: rs

/-- Python s.split(sep). -/
def pySplit (s : String) (sep : Char) : List String :=
  (splitChars sep s.data).map String.mk

/-- Python s.lstrip(chars): drops every leading character of s that occurs
anywhere in chars (chars is a character set, not a prefix). -/
def pyLstrip (s chars : String) : String :=
  String.mk (s.data.dropWhile (fun c => chars.data.contains c))

/-- Driver configuration values used by the modelled methods, mirroring the
attributes read from self.configuration in the source. -/
structure Config where
  nexenta_host : String
  nexenta_iscsi_target_portal_port : Nat
  nexenta_target_prefix : String
  nexenta_target_group_prefix : String
  nexenta_volume : String

/-- Source _get_zvol_name: zvol name for a given volume name. -/
def _get_zvol_name (cfg : Config) (volume_name : String) : String :=
  cfg.nexenta_volume ++ "/" ++ volume_name

/-- Source _get_target_name: iSCSI target name for a given volume name. -/
def _get_target_name (cfg : Config) (volume_name : String) : String :=
  cfg.nexenta_target_prefix ++ volume_name

/-- Source _get_target_group_name. -/
def _get_target_group_name (cfg : Config) (volume_name : String) : String :=
  cfg.nexenta_target_group_prefix ++ volume_name

/-- Source _get_provider_location: the iscsiadm-formatted provider location
string, built by the format string host:port,1 name 0. -/
def _get_provider_location (cfg : Config) (volume_name : String) : String :=
  cfg.nexenta_host ++ ":" ++ toString cfg.nexenta_iscsi_target_portal_port
    ++ ",1 " ++ _get_target_name cfg volume_name ++ " 0"

/-- Source _is_clone_snapshot_name: snapshot.split(at-sign)[-1]
startswith cinder-clone-snapshot- . -/
def _is_clone_snapshot_name (snapshot : String) : Bool :=
  pyStartswith ((pySplit snapshot '@').getLastD "") "cinder-clone-snapshot-"

/-- Fault kinds of the error classifier of spec section 4.1. -/
inductive FaultKind
  | AlreadyExists
  | NotFound
  | Busy
  | TargetOffline
  | Unknown
deriving DecidableEq

/-- Modelled from the spec: section 4.1 Error Classifier (the source has no
single classifier function, only inline substring checks; this definition
follows the ordered substring rule table of the spec and is used solely to
state classifier-worded claims against the source behaviour). -/
def specClassify (m : String) : FaultKind :=
  if pyIn "does not exist" m then FaultKind.NotFound
  else if pyIn "already configured" m || pyIn "already exists" m then FaultKind.AlreadyExists
  else if pyIn "target must be offline" m then FaultKind.TargetOffline
  else if pyIn "has children" m || pyIn "in use" m || pyIn "view entry exists" m
      || pyIn "dependent clones" m then FaultKind.Busy
  else FaultKind.Unknown

/-- Remote calls issued by the export reconciliation path, with the
arguments the source passes to the NMS.  Only the five creation calls are
traced; the existence checks are modelled as pure reads of the response
environment. -/
inductive ExportCall
  | create_target (target_name : String)
  | create_targetgroup (group : String)
  | add_targetgroup_member (group member : String)
  | create_lu (zvol : String)
  | add_lun_mapping_entry (zvol group : String)
deriving DecidableEq

/-- Responses of the appliance to the remote calls made during one run of
_do_export.  A creation-call field of none means the call succeeds; some
msg means it raises NexentaException(msg).  The list fields are the (JSON)
values returned by the stmf listing calls, and the two lu fields are the
responses of scsidisk.lu_exists (after Python bool coercion) and of
scsidisk.lu_shared. -/
structure ExportEnv where
  list_targets : List String
  list_targetgroups : List String
  targetgroup_members : List String
  lu_exists_r : Except String Bool
  lu_shared_r : Except String Int
  create_target_r : Option String
  create_targetgroup_r : Option String
  add_targetgroup_member_r : Option String
  create_lu_r : Option String
  add_lun_mapping_entry_r : Option String

/-- Source _target_exists: empty listing means absent, otherwise membership. -/
def _target_exists (env : ExportEnv) (target : String) : Bool :=
  if env.list_targets.isEmpty then false else env.list_targets.contains target

/-- Source _target_group_exists. -/
def _target_group_exists (env : ExportEnv) (target_group : String) : Bool :=
  if env.list_targetgroups.isEmpty then false
  else env.list_targetgroups.contains target_group

/-- Source _target_member_in_target_group (the group listing response is the
targetgroup_members field of the environment). -/
def _target_member_in_target_group (env : ExportEnv) (target_member : String) : Bool :=
  if env.targetgroup_members.isEmpty then false
  else env.targetgroup_members.contains target_member

/-- Source _lu_exists: a fault whose message contains does-not-exist is
converted to False, any other fault is re-raised. -/
def _lu_exists (env : ExportEnv) : Except PyExc Bool :=
  match env.lu_exists_r with
  | Except.ok b => Except.ok b
  | Except.error msg =>
    if pyIn "does not exist" msg then Except.ok false
    else Except.error (PyExc.nexenta msg)

/-- Source _is_lu_shared: shared means lu_shared returned a value greater
than zero; a fault containing does-not-exist-for-zvol means not shared. -/
def _is_lu_shared (env : ExportEnv) : Except PyExc Bool :=
  match env.lu_shared_r with
  | Except.ok n => Except.ok (decide (0 < n))
  | Except.error msg =>
    if pyIn "does not exist for zvol" msg then Except.ok false
    else Except.error (PyExc.nexenta msg)

/-- Sequencing of export steps: an error short-circuits, traces accumulate. -/
def andThenStep (a : Except PyExc Unit × List ExportCall)
    (b : Unit → Except PyExc Unit × List ExportCall) :
    Except PyExc Unit × List ExportCall :=
  match a with
  | (Except.error e, t) => (Except.error e, t)
  | (Except.ok _, t) =>
    let r := b ()
    (r.1, t ++ r.2)

/-- Source _do_export: the five-step export sequence (target, target group,
group membership, logical unit, LUN mapping), each step guarded by its
existence check and with the per-step except clauses translated verbatim
from the source. -/
def _do_export (cfg : Config) (volName : String) (env : ExportEnv) (ensure : Bool) :
    Except PyExc Unit × List ExportCall :=
  let zvol_name := _get_zvol_name cfg volName
  let target_name := _get_target_name cfg volName
  let target_group_name := _get_target_group_name cfg volName
  andThenStep
    (if _target_exists env target_name then (Except.ok (), [])
     else
       match env.create_target_r with
       | none => (Except.ok (), [ExportCall.create_target target_name])
       | some msg =>
         if ensure && pyIn "already configured" msg then
           (Except.ok (), [ExportCall.create_target target_name])
         else (Except.error (PyExc.nexenta msg), [ExportCall.create_target target_name]))
    (fun _ => andThenStep
      (if _target_group_exists env target_group_name then (Except.ok (), [])
       else
         match env.create_targetgroup_r with
         | none => (Except.ok (), [ExportCall.create_targetgroup target_group_name])
         | some msg =>
           if (ensure && pyIn "already exists" msg) || pyIn "target must be offline" msg then
             (Except.ok (), [ExportCall.create_targetgroup target_group_name])
           else (Except.error (PyExc.nexenta msg),
                 [ExportCall.create_targetgroup target_group_name]))
      (fun _ => andThenStep
        (if _target_member_in_target_group env target_name then (Except.ok (), [])
         else
           match env.add_targetgroup_member_r with
           | none => (Except.ok (),
                      [ExportCall.add_targetgroup_member target_group_name target_name])
           | some msg =>
             if (ensure && pyIn "already exists" msg) || pyIn "target must be offline" msg then
               (Except.ok (),
                [ExportCall.add_targetgroup_member target_group_name target_name])
             else (Except.error (PyExc.nexenta msg),
                   [ExportCall.add_targetgroup_member target_group_name target_name]))
        (fun _ => andThenStep
          (match _lu_exists env with
           | Except.error e => (Except.error e, [])
           | Except.ok true => (Except.ok (), [])
           | Except.ok false =>
             match env.create_lu_r with
             | none => (Except.ok (), [ExportCall.create_lu zvol_name])
             | some msg =>
               if !ensure || !(pyIn "in use" msg) then
                 (Except.error (PyExc.nexenta msg), [ExportCall.create_lu zvol_name])
               else (Except.ok (), [ExportCall.create_lu zvol_name]))
          (fun _ =>
            match _is_lu_shared env with
            | Except.error e => (Except.error e, [])
            | Except.ok true => (Except.ok (), [])
            | Except.ok false =>
              match env.add_lun_mapping_entry_r with
              | none => (Except.ok (),
                         [ExportCall.add_lun_mapping_entry zvol_name target_group_name])
              | some msg =>
                if !ensure || !(pyIn "view entry exists" msg) then
                  (Except.error (PyExc.nexenta msg),
                   [ExportCall.add_lun_mapping_entry zvol_name target_group_name])
                else (Except.ok (),
                      [ExportCall.add_lun_mapping_entry zvol_name target_group_name])))))

/-- Source create_export: strict-mode _do_export followed by the provider
location string. -/
def create_export (cfg : Config) (volName : String) (env : ExportEnv) :
    Except PyExc String × List ExportCall :=
  match _do_export cfg volName env false with
  | (Except.ok _, t) => (Except.ok (_get_provider_location cfg volName), t)
  | (Except.error e, t) => (Except.error e, t)

/-- Source ensure_export: _do_export with ensure=True. -/
def ensure_export (cfg : Config) (volName : String) (env : ExportEnv) :
    Except PyExc Unit × List ExportCall :=
  _do_export cfg volName env true

/-- Creation calls of the five export steps in order, for a given volume. -/
def exportCreationCalls (cfg : Config) (volName : String) : List ExportCall :=
  [ExportCall.create_target (_get_target_name cfg volName),
   ExportCall.create_targetgroup (_get_target_group_name cfg volName),
   ExportCall.add_targetgroup_member (_get_target_group_name cfg volName)
     (_get_target_name cfg volName),
   ExportCall.create_lu (_get_zvol_name cfg volName),
   ExportCall.add_lun_mapping_entry (_get_zvol_name cfg volName)
     (_get_target_group_name cfg volName)]

/-- Environment in which nothing exists yet, every creation call succeeds
except the one at step k (1-based), which raises NexentaException(m). -/
def faultAt (k : Nat) (m : String) : ExportEnv :=
  { list_targets := []
    list_targetgroups := []
    targetgroup_members := []
    lu_exists_r := Except.ok false
    lu_shared_r := Except.ok 0
    create_target_r := if k = 1 then some m else none
    create_targetgroup_r := if k = 2 then some m else none
    add_targetgroup_member_r := if k = 3 then some m else none
    create_lu_r := if k = 4 then some m else none
    add_lun_mapping_entry_r := if k = 5 then some m else none }

/-- Fault messages the source swallows (logs and proceeds) at step k of
_do_export, read off verbatim from the per-step except clauses. -/
def stepAccepts (ensure : Bool) (k : Nat) (m : String) : Bool :=
  if k = 1 then ensure && pyIn "already configured" m
  else if k = 2 ∨ k = 3 then
    (ensure && pyIn "already exists" m) || pyIn "target must be offline" m
  else if k = 4 then ensure && pyIn "in use" m
  else if k = 5 then ensure && pyIn "view entry exists" m
  else false

/-- Concrete configuration used by concrete instances, following the
scenario of spec section 8: host1, port 3260, target prefix iqn.prefix. -/
def cfg0 : Config :=
  { nexenta_host := "host1"
    nexenta_iscsi_target_portal_port := 3260
    nexenta_target_prefix := "iqn.prefix."
    nexenta_target_group_prefix := "cinder/"
    nexenta_volume := "cinder" }

/-- Characterization of _do_export on the environment where nothing exists
and exactly step k faults with message m: the fault is swallowed (and the
remaining steps all run) precisely when stepAccepts holds, and otherwise
the fault aborts the sequence after the k-th creation call and propagates. -/
lemma do_export_faultAt (cfg : Config) (vol : String) (ensure : Bool) (k : Nat)
    (m : String) (h1 : 1 ≤ k) (h2 : k ≤ 5) :
    _do_export cfg vol (faultAt k m) ensure =
      (if stepAccepts ensure k m then (Except.ok (), exportCreationCalls cfg vol)
       else (Except.error (PyExc.nexenta m), (exportCreationCalls cfg vol).take k)) := by
  interval_cases k
  · cases ensure <;> cases hp : pyIn "already configured" m <;>
      simp [_do_export, faultAt, stepAccepts, andThenStep, _target_exists,
        _target_group_exists, _target_member_in_target_group, _lu_exists,
        _is_lu_shared, exportCreationCalls, hp]
  · cases ensure <;> cases hp : pyIn "already exists" m <;>
      cases hq : pyIn "target must be offline" m <;>
      simp [_do_export, faultAt, stepAccepts, andThenStep, _target_exists,
        _target_group_exists, _target_member_in_target_group, _lu_exists,
        _is_lu_shared, exportCreationCalls, hp, hq]
  · cases ensure <;> cases hp : pyIn "already exists" m <;>
      cases hq : pyIn "target must be offline" m <;>
      simp [_do_export, faultAt, stepAccepts, andThenStep, _target_exists,
        _target_group_exists, _target_member_in_target_group, _lu_exists,
        _is_lu_shared, exportCreationCalls, hp, hq]
  · cases ensure <;> cases hp : pyIn "in use" m <;>
      simp [_do_export, faultAt, stepAccepts, andThenStep, _target_exists,
        _target_group_exists, _target_member_in_target_group, _lu_exists,
        _is_lu_shared, exportCreationCalls, hp]
  · cases ensure <;> cases hp : pyIn "view entry exists" m <;>
      simp [_do_export, faultAt, stepAccepts, andThenStep, _target_exists,
        _target_group_exists, _target_member_in_target_group, _lu_exists,
        _is_lu_shared, exportCreationCalls, hp]

/-- C1 counterexample: in ensure mode, the target-creation fault message
already-exists classifies as AlreadyExists under the spec classifier, yet
the source aborts and propagates it (step 1 only swallows messages
containing already-configured), refuting the claim that every
AlreadyExists-classified creation fault is treated as success. -/
theorem C1_counterexample :
    specClassify "already exists" = FaultKind.AlreadyExists ∧
    (_do_export cfg0 "v1" (faultAt 1 "already exists") true).1
      = Except.error (PyExc.nexenta "already exists") := by
  exact ⟨by decide, by rfl⟩

/-- C1 (amended): in ensure mode, a creation fault at step k of _do_export
is logged and treated as success, the sequence proceeding through all five
creation calls, exactly when the message matches the step-specific accept
set (step 1: already-configured; steps 2 and 3: already-exists or
target-must-be-offline; step 4: in-use; step 5: view-entry-exists); any
other fault aborts the sequence after the k-th creation call and
propagates to the caller unchanged. -/
theorem C1_ensure_mode_step_faults (cfg : Config) (vol : String) (k : Nat) (m : String)
    (h1 : 1 ≤ k) (h2 : k ≤ 5) :
    _do_export cfg vol (faultAt k m) true =
      (if stepAccepts true k m then (Except.ok (), exportCreationCalls cfg vol)
       else (Except.error (PyExc.nexenta m), (exportCreationCalls cfg vol).take k)) :=
  do_export_faultAt cfg vol true k m h1 h2

/-- Witness for C1: a target-group creation fault reading already-exists is
swallowed in ensure mode and all five creation calls run. -/
theorem C1_ensure_mode_step_faults_witness :
    1 ≤ 2 ∧ 2 ≤ 5 ∧
    _do_export cfg0 "v1" (faultAt 2 "already exists") true
      = (Except.ok (), exportCreationCalls cfg0 "v1") := by
  refine ⟨by decide, by decide, ?_⟩
  have h := C1_ensure_mode_step_faults cfg0 "v1" 2 "already exists" (by decide) (by decide)
  rw [h]
  rfl

/-- C2 counterexample: in strict mode (ensure=false), a target-group
creation fault whose message contains target-must-be-offline is swallowed
and the sequence runs to completion, refuting the claim that every fault
in strict mode aborts and propagates. -/
theorem C2_counterexample :
    _do_export cfg0 "v1" (faultAt 2 "target must be offline") false
      = (Except.ok (), exportCreationCalls cfg0 "v1") := by
  rfl

/-- C2 (amended): in strict mode every creation fault aborts the sequence
after its creation call and propagates unchanged, except that faults at
step 2 (target-group creation) and step 3 (group-member addition) whose
message contains target-must-be-offline are logged and treated as success,
the sequence proceeding through all five creation calls. -/
theorem C2_strict_mode_step_faults (cfg : Config) (vol : String) (k : Nat) (m : String)
    (h1 : 1 ≤ k) (h2 : k ≤ 5) :
    _do_export cfg vol (faultAt k m) false =
      (if stepAccepts false k m then (Except.ok (), exportCreationCalls cfg vol)
       else (Except.error (PyExc.nexenta m), (exportCreationCalls cfg vol).take k)) :=
  do_export_faultAt cfg vol false k m h1 h2

/-- Witness for C2: a target-creation fault in strict mode aborts after the
first creation call and propagates unchanged. -/
theorem C2_strict_mode_step_faults_witness :
    1 ≤ 1 ∧ 1 ≤ 5 ∧
    _do_export cfg0 "v1" (faultAt 1 "permission denied") false
      = (Except.error (PyExc.nexenta "permission denied"),
         (exportCreationCalls cfg0 "v1").take 1) := by
  refine ⟨by decide, by decide, ?_⟩
  have h := C2_strict_mode_step_faults cfg0 "v1" 1 "permission denied" (by decide) (by decide)
  rw [h]
  rfl

/-- Remote calls issued by the lifecycle and migration methods, with the
resource path arguments the source passes.  dst_snapshot_destroy is the
snapshot.destroy call issued through the freshly connected destination
appliance handle. -/
inductive NmsCall
  | ssh_list_bindings
  | zvol_create_snapshot (zvol name : String)
  | appliance_execute (cmd : String)
  | snapshot_destroy (path : String)
  | zvol_get_child_props (path : String)
  | zvol_destroy (path : String)
  | dst_snapshot_destroy (path : String)
deriving DecidableEq

/-- Source delete_snapshot: destroys volume@name; a fault containing
does-not-exist is treated as already deleted, one containing
snapshot-has-dependent-clones raises SnapshotIsBusy with the short
snapshot name, any other fault is re-raised.  The destroy_r argument is
the response of nms.snapshot.destroy. -/
def delete_snapshot (cfg : Config) (snapVolumeName snapName : String)
    (destroy_r : Option String) : Except PyExc Unit × List NmsCall :=
  let volume_name := _get_zvol_name cfg snapVolumeName
  let snapshot_name := volume_name ++ "@" ++ snapName
  (match destroy_r with
   | none => Except.ok ()
   | some msg =>
     if pyIn "does not exist" msg then Except.ok ()
     else if pyIn "snapshot has dependent clones" msg then
       Except.error (PyExc.snapshotIsBusy snapName)
     else Except.error (PyExc.nexenta msg),
   [NmsCall.snapshot_destroy snapshot_name])

/-- Source create_snapshot: direct pass-through of zvol.create_snapshot,
any fault propagates. -/
def create_snapshot (cfg : Config) (snapVolumeName snapName : String)
    (r : Option String) : Except PyExc Unit × List NmsCall :=
  (match r with
   | none => Except.ok ()
   | some msg => Except.error (PyExc.nexenta msg),
   [NmsCall.zvol_create_snapshot (_get_zvol_name cfg snapVolumeName) snapName])

/-- Appliance responses to the remote calls of one delete_volume run:
the value of the origin property read by zvol.get_child_props, the
response of zvol.destroy, and the response of the snapshot.destroy issued
for the origin snapshot (reached only when the origin matches the clone
marker). -/
structure DeleteVolumeEnv where
  get_child_props_origin : Option String
  destroy_r : Option String
  origin_destroy_r : Option String

/-- Source delete_volume: reads the origin property, destroys the zvol
(does-not-exist means already deleted; zvol-has-children raises
VolumeIsBusy with the zvol name; anything else re-raises), then, on
successful destroy, if the origin is non-empty and matches the clone
marker, splits it at the at-sign, lstrips the volume part with the pool
name plus slash, and best-effort deletes that origin snapshot, catching
only NexentaException from the attempt. -/
def delete_volume (cfg : Config) (volName : String) (env : DeleteVolumeEnv) :
    Except PyExc Unit × List NmsCall :=
  let volume_name := _get_zvol_name cfg volName
  let t0 := [NmsCall.zvol_get_child_props volume_name, NmsCall.zvol_destroy volume_name]
  match env.destroy_r with
  | some msg =>
    if pyIn "does not exist" msg then (Except.ok (), t0)
    else if pyIn "zvol has children" msg then
      (Except.error (PyExc.volumeIsBusy volume_name), t0)
    else (Except.error (PyExc.nexenta msg), t0)
  | none =>
    match env.get_child_props_origin with
    | none => (Except.ok (), t0)
    | some origin =>
      if origin == "" then (Except.ok (), t0)
      else if _is_clone_snapshot_name origin then
        match pySplit origin '@' with
        | [v, s] =>
          let v2 := pyLstrip v (cfg.nexenta_volume ++ "/")
          let dres := delete_snapshot cfg v2 s env.origin_destroy_r
          match dres.1 with
          | Except.ok _ => (Except.ok (), t0 ++ dres.2)
          | Except.error (PyExc.nexenta _) => (Except.ok (), t0 ++ dres.2)
          | Except.error e => (Except.error e, t0 ++ dres.2)
        | _ => (Except.error PyExc.valueError, t0)
      else (Except.ok (), t0)

/-- C6: delete_volume treats a destroy fault containing does-not-exist
(the NotFound classification, and the spec classifier yields NotFound
exactly for such messages) as success, raises VolumeIsBusy carrying the
zvol name of the volume when the fault says the zvol has children, and
re-raises any other fault unchanged; delete_snapshot likewise treats
does-not-exist as success and raises SnapshotIsBusy carrying the snapshot
name on dependent-clones faults, re-raising anything else. -/
theorem C6_delete_fault_classification (cfg : Config) (vol snapVol snapName m ms : String)
    (origin odr : Option String) :
    (delete_volume cfg vol
        { get_child_props_origin := origin, destroy_r := some m,
          origin_destroy_r := odr }).1 =
      (if pyIn "does not exist" m then Except.ok ()
       else if pyIn "zvol has children" m then
         Except.error (PyExc.volumeIsBusy (_get_zvol_name cfg vol))
       else Except.error (PyExc.nexenta m)) ∧
    (delete_snapshot cfg snapVol snapName (some ms)).1 =
      (if pyIn "does not exist" ms then Except.ok ()
       else if pyIn "snapshot has dependent clones" ms then
         Except.error (PyExc.snapshotIsBusy snapName)
       else Except.error (PyExc.nexenta ms)) ∧
    (specClassify m = FaultKind.NotFound ↔ pyIn "does not exist" m = true) := by
  refine ⟨?_, ?_, ?_⟩
  · simp only [delete_volume]
    split
    · rfl
    · split <;> rfl
  · simp only [delete_snapshot]
  · unfold specClassify
    cases hp : pyIn "does not exist" m <;>
    cases h1 : pyIn "already configured" m || pyIn "already exists" m <;>
    cases h2 : pyIn "target must be offline" m <;>
    cases h3 : pyIn "has children" m || pyIn "in use" m || pyIn "view entry exists" m
        || pyIn "dependent clones" m <;>
      simp [hp, h1, h2, h3]

/-- C7 counterexample: when the origin snapshot of a successfully
destroyed clone volume fails to delete with a dependent-clones fault, the
resulting SnapshotIsBusy is not a NexentaException, escapes the handler in
delete_volume and propagates, refuting the claim that a failure of the
attempted origin-snapshot deletion is logged and never propagated. -/
theorem C7_counterexample :
    (delete_volume cfg0 "v1"
        { get_child_props_origin := some "cinder/src@cinder-clone-snapshot-abc",
          destroy_r := none,
          origin_destroy_r := some "snapshot has dependent clones" }).1
      = Except.error (PyExc.snapshotIsBusy "cinder-clone-snapshot-abc") := by
  rfl

/-- splitChars never returns the empty list of segments. -/
lemma splitChars_ne_nil (sep : Char) (l : List Char) : splitChars sep l ≠ [] := by
  cases l with
  | nil => simp [splitChars]
  | cons c cs =>
    simp only [splitChars]
    split
    · simp
    · split <;> simp

/-- Splitting a separator-free list yields a single segment. -/
lemma splitChars_no_sep (sep : Char) (l : List Char) (h : sep ∉ l) :
    splitChars sep l = [l] := by
  induction l with
  | nil => rfl
  | cons c cs ih =>
    rw [List.mem_cons, not_or] at h
    obtain ⟨h1, h2⟩ := h
    have hc : (c == sep) = false := by
      simp only [beq_eq_false_iff_ne]
      exact fun e => h1 (e ▸ rfl)
    rw [splitChars, if_neg (by simp [hc]), ih h2]

/-- Splitting a list that contains the separator yields at least two
segments. -/
lemma splitChars_sep_mem (sep : Char) (l : List Char) (h : sep ∈ l) :
    ∃ r rs, splitChars sep l = r :: rs ∧ rs ≠ [] := by
  induction l with
  | nil => cases h
  | cons c cs ih =>
    by_cases hc : (c == sep) = true
    · refine ⟨[], splitChars sep cs, ?_, splitChars_ne_nil sep cs⟩
      rw [splitChars, if_pos hc]
    · have h2 : sep ∈ cs := by
        rcases List.mem_cons.mp h with h1 | h1
        · exact absurd (beq_iff_eq.mpr h1.symm) hc
        · exact h1
      obtain ⟨r, rs, he, hrs⟩ := ih h2
      refine ⟨c :: r, rs, ?_, hrs⟩
      rw [splitChars, if_neg hc, he]

/-- The default value of getLastD is irrelevant on a non-empty list. -/
lemma getLastD_of_ne_nil {α : Type} {l : List α} (h : l ≠ []) (d d' : α) :
    l.getLastD d = l.getLastD d' := by
  cases l with
  | nil => exact absurd rfl h
  | cons a t => rw [List.getLastD_cons, List.getLastD_cons]

/-- The last segment of a split at the final separator occurrence is the
separator-free tail. -/
lemma splitChars_getLastD_append (sep : Char) (pre snap : List Char) (h : sep ∉ snap) :
    (splitChars sep (pre ++ sep :: snap)).getLastD [] = snap := by
  induction pre with
  | nil =>
    rw [List.nil_append, splitChars, if_pos (beq_self_eq_true sep),
      splitChars_no_sep sep snap h]
    simp [List.getLastD_cons]
  | cons x pre ih =>
    rw [List.cons_append]
    by_cases hx : (x == sep) = true
    · rw [splitChars, if_pos hx, List.getLastD_cons]
      exact ih
    · have hmem : sep ∈ pre ++ sep :: snap :=
        List.mem_append.mpr (Or.inr (List.mem_cons_self _ _))
      obtain ⟨r, rs, he, hrs⟩ := splitChars_sep_mem sep _ hmem
      rw [splitChars, if_neg hx, he, List.getLastD_cons]
      rw [he, List.getLastD_cons] at ih
      rw [getLastD_of_ne_nil hrs (x :: r) r]
      exact ih

/-- getLastD commutes with mapping String.mk over the segments. -/
lemma getLastD_map_mk (l : List (List Char)) (d : List Char) :
    (l.map String.mk).getLastD (String.mk d) = String.mk (l.getLastD d) := by
  induction l generalizing d with
  | nil => rfl
  | cons a t ih =>
    rw [List.map_cons, List.getLastD_cons, List.getLastD_cons]
    exact ih a

/-- C9: on a pool-volume-snapshot identifier of the form prefix then the
at-sign then the short snapshot name, _is_clone_snapshot_name is exactly
the Python startswith test for cinder-clone-snapshot- on the short name:
identifiers whose short name has the prefix are recognized, all others are
not. -/
theorem C9_clone_marker_recognition (pre snap : String) (h : ('@' : Char) ∉ snap.data) :
    _is_clone_snapshot_name (pre ++ "@" ++ snap)
      = pyStartswith snap "cinder-clone-snapshot-" := by
  unfold _is_clone_snapshot_name pySplit
  have hd : (pre ++ "@" ++ snap).data = pre.data ++ '@' :: snap.data := by
    rw [String.data_append, String.data_append, List.append_assoc]
    rfl
  rw [hd]
  rw [show ("" : String) = String.mk [] from rfl, getLastD_map_mk,
    splitChars_getLastD_append '@' pre.data snap.data h]

/-- Witness for C9: a marker-named short snapshot name is recognized. -/
theorem C9_clone_marker_recognition_witness :
    (('@' : Char) ∉ ("cinder-clone-snapshot-1" : String).data) ∧
    _is_clone_snapshot_name ("pool/vol" ++ "@" ++ "cinder-clone-snapshot-1")
      = pyStartswith "cinder-clone-snapshot-1" "cinder-clone-snapshot-" :=
  ⟨by decide, C9_clone_marker_recognition "pool/vol" "cinder-clone-snapshot-1" (by decide)⟩

/-- Splitting a list with exactly one separator occurrence yields its two
separator-free parts. -/
lemma splitChars_single_sep (sep : Char) (l1 l2 : List Char)
    (h1 : sep ∉ l1) (h2 : sep ∉ l2) :
    splitChars sep (l1 ++ sep :: l2) = [l1, l2] := by
  induction l1 with
  | nil =>
    rw [List.nil_append, splitChars, if_pos (beq_self_eq_true sep),
      splitChars_no_sep sep l2 h2]
  | cons x t ih =>
    rw [List.mem_cons, not_or] at h1
    obtain ⟨hx, ht⟩ := h1
    have hxb : (x == sep) = false := by
      simp only [beq_eq_false_iff_ne]
      exact fun e => hx (e ▸ rfl)
    rw [List.cons_append, splitChars, if_neg (by simp [hxb]), ih ht]

/-- Python split of a one-at-sign identifier into its two parts. -/
lemma pySplit_single_at (v s : String) (hv : ('@' : Char) ∉ v.data)
    (hs : ('@' : Char) ∉ s.data) :
    pySplit (v ++ "@" ++ s) '@' = [v, s] := by
  unfold pySplit
  have hd : (v ++ "@" ++ s).data = v.data ++ '@' :: s.data := by
    rw [String.data_append, String.data_append, List.append_assoc]
    rfl
  rw [hd, splitChars_single_sep '@' v.data s.data hv hs]
  rfl

/-- A one-at-sign identifier is never the empty string (Python truthiness
of the origin value). -/
lemma append_at_ne_empty (v s : String) : ((v ++ "@" ++ s) == "") = false := by
  apply beq_eq_false_iff_ne.mpr
  intro he
  have hd : (v ++ "@" ++ s).data = v.data ++ '@' :: s.data := by
    rw [String.data_append, String.data_append, List.append_assoc]
    rfl
  rw [he] at hd
  have h0 : ([] : List Char) = v.data ++ '@' :: s.data := hd
  exact absurd h0.symm (by simp)

/-- Clone-marker recognition on a one-at-sign identifier is the startswith
test on the short name (helper shared by the origin-cleanup development). -/
lemma clone_marker_on_short_name (pre snap : String) (h : ('@' : Char) ∉ snap.data) :
    _is_clone_snapshot_name (pre ++ "@" ++ snap)
      = pyStartswith snap "cinder-clone-snapshot-" := by
  unfold _is_clone_snapshot_name pySplit
  have hd : (pre ++ "@" ++ snap).data = pre.data ++ '@' :: snap.data := by
    rw [String.data_append, String.data_append, List.append_assoc]
    rfl
  rw [hd]
  rw [show ("" : String) = String.mk [] from rfl, getLastD_map_mk,
    splitChars_getLastD_append '@' pre.data snap.data h]

/-- C7 (amended): for every configuration and volume, delete_volume reads
the origin property before issuing the destroy (the trace order shows it);
after a successful destroy, for every origin of the pool-volume-at-snapshot
shape (a single at-sign), it issues exactly one origin-snapshot deletion if
and only if the short snapshot name of the origin matches the clone-marker
pattern, at the lstrip-computed path; no deletion is issued when the origin
does not match, when the origin is absent, or when the destroy did not
succeed (any fault message); a NexentaException failure of the attempted
deletion is logged and not propagated (does-not-exist treated as success),
but a dependent-clones failure raises SnapshotIsBusy out of delete_volume. -/
theorem C7_origin_cleanup (cfg : Config) (volName v s dm : String)
    (origin0 odr : Option String)
    (hv : ('@' : Char) ∉ v.data) (hs : ('@' : Char) ∉ s.data) :
    (_is_clone_snapshot_name (v ++ "@" ++ s) = pyStartswith s "cinder-clone-snapshot-") ∧
    (delete_volume cfg volName
        { get_child_props_origin := some (v ++ "@" ++ s), destroy_r := none,
          origin_destroy_r := odr }
      = (if pyStartswith s "cinder-clone-snapshot-" then
           ((match odr with
             | none => Except.ok ()
             | some m =>
               if pyIn "does not exist" m then Except.ok ()
               else if pyIn "snapshot has dependent clones" m then
                 Except.error (PyExc.snapshotIsBusy s)
               else Except.ok ()),
            [NmsCall.zvol_get_child_props (_get_zvol_name cfg volName),
             NmsCall.zvol_destroy (_get_zvol_name cfg volName),
             NmsCall.snapshot_destroy
               (_get_zvol_name cfg (pyLstrip v (cfg.nexenta_volume ++ "/")) ++ "@" ++ s)])
         else
           (Except.ok (),
            [NmsCall.zvol_get_child_props (_get_zvol_name cfg volName),
             NmsCall.zvol_destroy (_get_zvol_name cfg volName)]))) ∧
    (delete_volume cfg volName
        { get_child_props_origin := none, destroy_r := none, origin_destroy_r := odr }
      = (Except.ok (),
         [NmsCall.zvol_get_child_props (_get_zvol_name cfg volName),
          NmsCall.zvol_destroy (_get_zvol_name cfg volName)])) ∧
    ((delete_volume cfg volName
        { get_child_props_origin := origin0, destroy_r := some dm,
          origin_destroy_r := odr }).2
      = [NmsCall.zvol_get_child_props (_get_zvol_name cfg volName),
         NmsCall.zvol_destroy (_get_zvol_name cfg volName)]) := by
  have hmark := clone_marker_on_short_name v s hs
  have hne : ((v ++ "@" ++ s) == "") = false := append_at_ne_empty v s
  have hsplit := pySplit_single_at v s hv hs
  refine ⟨hmark, ?_, ?_, ?_⟩
  · rcases odr with _ | m
    · cases hm : pyStartswith s "cinder-clone-snapshot-" <;>
        simp [delete_volume, delete_snapshot, hne, hmark, hsplit, hm]
    · cases hm : pyStartswith s "cinder-clone-snapshot-" <;>
      cases hp : pyIn "does not exist" m <;>
      cases hq : pyIn "snapshot has dependent clones" m <;>
        simp [delete_volume, delete_snapshot, hne, hmark, hsplit, hm, hp, hq]
  · rfl
  · simp only [delete_volume]
    split
    · rfl
    · split <;> rfl

/-- Witness for C7: the marker origin cinder/src at-sign
cinder-clone-snapshot-abc with a successful destroy and successful
cleanup: exactly one snapshot_destroy at the lstrip-computed path. -/
theorem C7_origin_cleanup_witness :
    (('@' : Char) ∉ ("cinder/src" : String).data) ∧
    (('@' : Char) ∉ ("cinder-clone-snapshot-abc" : String).data) ∧
    delete_volume cfg0 "v1"
        { get_child_props_origin := some ("cinder/src" ++ "@" ++ "cinder-clone-snapshot-abc"),
          destroy_r := none, origin_destroy_r := none }
      = (Except.ok (),
         [NmsCall.zvol_get_child_props "cinder/v1", NmsCall.zvol_destroy "cinder/v1",
          NmsCall.snapshot_destroy "cinder/src@cinder-clone-snapshot-abc"]) := by
  refine ⟨by decide, by decide, ?_⟩
  have h := (C7_origin_cleanup cfg0 "v1" "cinder/src" "cinder-clone-snapshot-abc" "boom"
    none none (by decide) (by decide)).2.1
  rw [h]
  rfl

/-- Test whether the first character of s occurs in the character set
chars (false on the empty string). -/
def beginsWithAny (s chars : String) : Bool :=
  match s.data with
  | [] => false
  | c :: _ => chars.data.contains c

/-- dropWhile over an append whose left part satisfies the predicate
throughout continues into the right part. -/
lemma dropWhile_all {p : Char → Bool} (l1 l2 : List Char) (h : ∀ c ∈ l1, p c = true) :
    (l1 ++ l2).dropWhile p = l2.dropWhile p := by
  induction l1 with
  | nil => rfl
  | cons a t ih =>
    rw [List.cons_append, List.dropWhile_cons, if_pos (h a (List.mem_cons_self a t))]
    exact ih (fun c hc => h c (List.mem_cons_of_mem a hc))

/-- dropWhile never lengthens a list. -/
lemma length_dropWhile_le_self {α : Type} (p : α → Bool) (l : List α) :
    (l.dropWhile p).length ≤ l.length := by
  induction l with
  | nil => exact Nat.le_refl _
  | cons a t ih =>
    rw [List.dropWhile_cons]
    split
    · exact Nat.le_trans ih (Nat.le_succ _)
    · exact Nat.le_refl _

/-- C10: in the origin-snapshot cleanup of delete_volume, the lstrip of
the pool-qualified origin volume part with the pool name plus slash drops
every leading character belonging to that character set, so the computed
volume name equals the embedded volume name exactly when that name does
not begin with a character of the set, is strictly shorter otherwise, and
concretely the deletion then targets a wrong snapshot path (pool cinder,
volume data1 yields ata1). -/
theorem C10_origin_lstrip_truncation (pool vol : String) :
    (pyLstrip (pool ++ "/" ++ vol) (pool ++ "/")
       = String.mk (vol.data.dropWhile (fun c => (pool ++ "/").data.contains c))) ∧
    (pyLstrip (pool ++ "/" ++ vol) (pool ++ "/") = vol ↔
       beginsWithAny vol (pool ++ "/") = false) ∧
    (beginsWithAny vol (pool ++ "/") = true →
       (pyLstrip (pool ++ "/" ++ vol) (pool ++ "/")).data.length < vol.data.length) ∧
    (delete_volume cfg0 "v1"
        { get_child_props_origin := some "cinder/data1@cinder-clone-snapshot-z",
          destroy_r := none, origin_destroy_r := none })
      = (Except.ok (),
         [NmsCall.zvol_get_child_props "cinder/v1", NmsCall.zvol_destroy "cinder/v1",
          NmsCall.snapshot_destroy "cinder/ata1@cinder-clone-snapshot-z"]) := by
  obtain ⟨l⟩ := vol
  have hkey : pyLstrip (pool ++ "/" ++ String.mk l) (pool ++ "/")
      = String.mk (l.dropWhile (fun c => (pool ++ "/").data.contains c)) := by
    unfold pyLstrip
    rw [String.data_append (pool ++ "/") (String.mk l),
      dropWhile_all ((pool ++ "/").data) ((String.mk l).data)
        (fun c hc => List.elem_iff.mpr hc)]
  refine ⟨hkey, ?_, ?_, ?_⟩
  · rw [hkey]
    cases l with
    | nil => exact ⟨fun _ => rfl, fun _ => rfl⟩
    | cons c cs =>
      rw [show beginsWithAny (String.mk (c :: cs)) (pool ++ "/")
          = (pool ++ "/").data.contains c from rfl]
      constructor
      · intro h
        cases hp : (pool ++ "/").data.contains c with
        | false => rfl
        | true =>
          exfalso
          rw [List.dropWhile_cons, if_pos hp] at h
          have h2 : cs.dropWhile (fun c => (pool ++ "/").data.contains c) = c :: cs :=
            congrArg String.data h
          have h3 := length_dropWhile_le_self (fun c => (pool ++ "/").data.contains c) cs
          rw [h2, List.length_cons] at h3
          omega
      · intro h
        rw [List.dropWhile_cons, if_neg (by rw [h]; exact fun hx => Bool.noConfusion hx)]
  · rw [hkey]
    intro h
    cases l with
    | nil => exact Bool.noConfusion h
    | cons c cs =>
      have hp : (pool ++ "/").data.contains c = true := h
      rw [List.dropWhile_cons, if_pos hp]
      exact Nat.lt_succ_of_le
        (length_dropWhile_le_self (fun c => (pool ++ "/").data.contains c) cs)
  · rfl

/-- Witness for C10: with pool cinder, the volume name data1 begins with a
pool character and the cleanup path keeps only ata1, while a volume name
src is untouched. -/
theorem C10_origin_lstrip_truncation_witness :
    pyLstrip ("cinder" ++ "/" ++ "data1") ("cinder" ++ "/") ≠ "data1" ∧
    pyLstrip ("cinder" ++ "/" ++ "src") ("cinder" ++ "/") = "src" := by
  have h := C10_origin_lstrip_truncation "cinder" "data1"
  have h2 := C10_origin_lstrip_truncation "cinder" "src"
  constructor
  · intro he
    have := (h.2.1).mp he
    exact absurd this (by decide)
  · exact (h2.2.1).mpr (by decide)

/-- Volume reference fields read by the modelled methods. -/
structure Volume where
  id : String
  name : String
  size : Int
  status : String

/-- Capability dictionary of the migration destination host.  Fields whose
presence the source checks with a membership test are Option-valued;
vendor_name is read with dict.get; free_capacity_gb is read
unconditionally after the presence gates. -/
structure CapDict where
  vendor_name : Option String
  location_info : Option String
  iscsi_target_portal_port : Option Nat
  nms_url : Option String
  free_capacity_gb : Int

/-- Appliance responses to the remote calls of one migrate_volume run.
dvEnv carries the responses of the delete_volume call on the source
volume; dst_snap_destroy_r is the response of the snapshot.destroy issued
on the destination appliance (any NexentaException there is caught and
logged, so the field records the call response for completeness). -/
structure MigEnv where
  ssh_list_bindings : List String
  create_snapshot_r : Option String
  execute_r : Option String
  src_snap_destroy_r : Option String
  dvEnv : DeleteVolumeEnv
  dst_snap_destroy_r : Option String

/-- Modelled from the spec: utils.get_migrate_snapshot_name, the
uniquely-named temporary migration snapshot of a volume (spec section 4.4
step 2); the utils module providing it is not under src/.  The exact
shape of the name does not decide any claim, only its use as snapshot
identifier does. -/
def get_migrate_snapshot_name (volume : Volume) : String :=
  "cinder-migrate-snapshot-" ++ volume.id

/-- Modelled from the spec: utils.get_rrmgr_cmd, the textual replication
command for a source snapshot and destination (spec section 4.4 step 3,
with compression, TCP buffer and connection options); the utils module
providing it is not under src/.  Only the fact that the command is
executed matters to the claims, never its text. -/
def get_rrmgr_cmd (src dst : String) : String :=
  "rrmgr -s " ++ src ++ " " ++ dst

/-- Outcome filter of a finally-guarded cleanup in migrate_volume: only
NexentaException is caught (and logged) around the temporary-snapshot
deletion and the source-volume deletion, so any other exception escapes. -/
def finallyGate (cleanup : Except PyExc Unit) : Option PyExc :=
  match cleanup with
  | Except.ok _ => none
  | Except.error (PyExc.nexenta _) => none
  | Except.error e => some e

/-- Result of the try-except-finally around the replication call when the
replication raised: the pending value (migration not performed) is
returned unless the finally-clause cleanup itself raised something the
except clause inside the finally does not catch. -/
def finallyReturn (pending : Except PyExc (Bool × Option String))
    (cleanup : Except PyExc Unit) : Except PyExc (Bool × Option String) :=
  match finallyGate cleanup with
  | some e => Except.error e
  | none => pending

/-- Result of migrate_volume after a successful replication, as a function
of the outcome of the best-effort source-volume deletion: NexentaException
from it is logged and ignored, other exceptions propagate, and otherwise
the migration reports success with the destination provider location. -/
def postReplicationResult (dvRes : Except PyExc Unit) (provider_location : String) :
    Except PyExc (Bool × Option String) :=
  match dvRes with
  | Except.error (PyExc.nexenta _) => Except.ok (true, some provider_location)
  | Except.error e => Except.error e
  | Except.ok _ => Except.ok (true, some provider_location)

/-- Remote calls issued after the source-volume deletion attempt: the
destination-side snapshot destroy runs unless that deletion raised a
non-NexentaException. -/
def postReplicationCalls (dvRes : Except PyExc Unit) (dst_snapshot : String) :
    List NmsCall :=
  match dvRes with
  | Except.error (PyExc.nexenta _) => [NmsCall.dst_snapshot_destroy dst_snapshot]
  | Except.error _ => []
  | Except.ok _ => [NmsCall.dst_snapshot_destroy dst_snapshot]

/-- Source migrate_volume: precondition gates (status, capability
presence, vendor, driver class name, free capacity), the SSH-binding
check (bind.index raises ValueError when the substring is absent, so only
the first binding is ever inspected when the list is non-empty), the
temporary snapshot creation, the replication attempt with its
finally-guarded temporary-snapshot deletion (only NexentaException is
caught around the deletion, so SnapshotIsBusy from it propagates), the
best-effort source volume deletion (again only NexentaException caught),
the destination-side snapshot deletion through a fresh handle (its
NexentaException always caught), and the provider-location result. -/
def migrate_volume (cfg : Config) (env : MigEnv) (volume : Volume)
    (host : Option CapDict) : Except PyExc (Bool × Option String) × List NmsCall :=
  let false_ret : Except PyExc (Bool × Option String) × List NmsCall :=
    (Except.ok (false, none), [])
  if volume.status ≠ "available" then false_ret
  else
    match host with
    | none => false_ret
    | some capabilities =>
      match capabilities.location_info, capabilities.iscsi_target_portal_port,
          capabilities.nms_url with
      | some location_info, some iscsi_target_portal_port, some _nms_url =>
        let dst_parts := pySplit location_info ':'
        if capabilities.vendor_name ≠ some "Nexenta" ∨
            dst_parts.getD 0 "" ≠ "NexentaISCSIDriver" ∨
            capabilities.free_capacity_gb < volume.size then false_ret
        else
          match dst_parts with
          | [_, dst_host, dst_volume] =>
            let sshTrace := [NmsCall.ssh_list_bindings]
            let sshCheck : Except PyExc Bool :=
              match env.ssh_list_bindings with
              | [] => Except.ok false
              | b :: _ =>
                if pyIn dst_host b then Except.ok true else Except.error PyExc.valueError
            match sshCheck with
            | Except.error e => (Except.error e, sshTrace)
            | Except.ok _ssh_bound =>
              let snapName := get_migrate_snapshot_name volume
              let cs := create_snapshot cfg volume.name snapName env.create_snapshot_r
              match cs.1 with
              | Except.error e => (Except.error e, sshTrace ++ cs.2)
              | Except.ok _ =>
                let src := cfg.nexenta_volume ++ "/" ++ volume.name ++ "@" ++ snapName
                let dst := dst_host ++ ":" ++ dst_volume
                let execTrace := [NmsCall.appliance_execute (get_rrmgr_cmd src dst)]
                let ds := delete_snapshot cfg volume.name snapName env.src_snap_destroy_r
                let t3 := sshTrace ++ cs.2 ++ execTrace ++ ds.2
                match env.execute_r with
                | some _ => (finallyReturn (Except.ok (false, none)) ds.1, t3)
                | none =>
                  match finallyGate ds.1 with
                  | some e => (Except.error e, t3)
                  | none =>
                    let dv := delete_volume cfg volume.name env.dvEnv
                    let dst_snapshot := dst_volume ++ "/" ++ volume.name ++ "@" ++ snapName
                    let provider_location := dst_host ++ ":"
                      ++ toString iscsi_target_portal_port ++ ",1 "
                      ++ _get_target_name cfg volume.name ++ " 0"
                    (postReplicationResult dv.1 provider_location,
                     t3 ++ dv.2 ++ postReplicationCalls dv.1 dst_snapshot)
          | _ => (Except.error PyExc.valueError, [])
      | _, _, _ => false_ret

/-- Concrete volume used by concrete migration instances. -/
def vol0 : Volume :=
  { id := "vid", name := "v1", size := 1, status := "available" }

/-- Concrete destination capabilities passing every migration gate. -/
def caps0 : CapDict :=
  { vendor_name := some "Nexenta"
    location_info := some "NexentaISCSIDriver:desthost:destpool"
    iscsi_target_portal_port := some 3260
    nms_url := some "http://dst"
    free_capacity_gb := 100 }

/-- delete_volume environment with no origin and successful destroy. -/
def dvEnvNone : DeleteVolumeEnv :=
  { get_child_props_origin := none, destroy_r := none, origin_destroy_r := none }

/-- Migration environment whose SSH-binding listing contains the
destination host, with the given responses for snapshot creation,
replication, temporary-snapshot deletion, source-volume deletion and
destination-snapshot deletion. -/
def mkMigEnv (csr exr dsr : Option String) (dv : DeleteVolumeEnv)
    (dstr : Option String) : MigEnv :=
  { ssh_list_bindings := ["desthost"]
    create_snapshot_r := csr
    execute_r := exr
    src_snap_destroy_r := dsr
    dvEnv := dv
    dst_snap_destroy_r := dstr }

/-- C5: the SSH-trust-binding check is not non-fatal.  When the first
binding returned by the appliance does not contain the destination host
as a substring, bind.index raises ValueError (it never returns -1), the
exception is not caught anywhere in migrate_volume, and the migration
aborts right after the listing call instead of merely logging a warning
and proceeding. -/
theorem C5_ssh_binding_check_raises :
    pyIn "desthost" "root@otherhost:/backup" = false ∧
    migrate_volume cfg0
        { ssh_list_bindings := ["root@otherhost:/backup"]
          create_snapshot_r := none
          execute_r := none
          src_snap_destroy_r := none
          dvEnv := dvEnvNone
          dst_snap_destroy_r := none }
        vol0 (some caps0)
      = (Except.error PyExc.valueError, [NmsCall.ssh_list_bindings]) :=
  ⟨rfl, rfl⟩

/-- C3 counterexample: the replication command fails and the temporary
snapshot deletion fails with a dependent-clones fault; the SnapshotIsBusy
raised inside the finally clause is not a NexentaException, escapes, and
migrate_volume raises instead of returning the no-migration pair, refuting
the claim that the method returns success flag false whenever replication
raises. -/
theorem C3_counterexample :
    (migrate_volume cfg0
        (mkMigEnv none (some "rrmgr failed") (some "snapshot has dependent clones")
          dvEnvNone none)
        vol0 (some caps0)).1
      = Except.error (PyExc.snapshotIsBusy "cinder-migrate-snapshot-vid") :=
  rfl

/-- C3 (amended): whenever the replication command raises, the temporary
source snapshot deletion is issued exactly once (it is the single
snapshot_destroy call of the trace, which is identical for every
replication fault message and every deletion response), and the method
returns success flag false with no model update provided the deletion
response is anything a NexentaException handler covers (success,
does-not-exist, or any other appliance message); a dependent-clones
deletion response instead raises SnapshotIsBusy out of the method. -/
theorem C3_replication_failure_cleanup (em : String) (dsr : Option String) :
    migrate_volume cfg0 (mkMigEnv none (some em) dsr dvEnvNone none) vol0 (some caps0)
      = (finallyReturn (Except.ok (false, none))
           (delete_snapshot cfg0 "v1" "cinder-migrate-snapshot-vid" dsr).1,
         [NmsCall.ssh_list_bindings,
          NmsCall.zvol_create_snapshot "cinder/v1" "cinder-migrate-snapshot-vid",
          NmsCall.appliance_execute
            (get_rrmgr_cmd "cinder/v1@cinder-migrate-snapshot-vid" "desthost:destpool"),
          NmsCall.snapshot_destroy "cinder/v1@cinder-migrate-snapshot-vid"]) ∧
    (migrate_volume cfg0 (mkMigEnv none (some em) none dvEnvNone none) vol0
        (some caps0)).1
      = Except.ok (false, none) ∧
    (migrate_volume cfg0 (mkMigEnv none (some em) (some "some other failure") dvEnvNone none)
        vol0 (some caps0)).1
      = Except.ok (false, none) :=
  ⟨rfl, rfl, rfl⟩

/-- C4 counterexample: after a successful replication, the best-effort
source-volume deletion fails because the zvol has children; the resulting
VolumeIsBusy is not a NexentaException, escapes the handler, and
migrate_volume raises instead of returning success with the provider
location, refuting the claim that deletion failures never prevent the
success return. -/
theorem C4_counterexample :
    (migrate_volume cfg0
        (mkMigEnv none none none
          { get_child_props_origin := none, destroy_r := some "zvol has children",
            origin_destroy_r := none } none)
        vol0 (some caps0)).1
      = Except.error (PyExc.volumeIsBusy "cinder/v1") :=
  rfl

/-- C4 (amended): when the replication command succeeds, the workflow
deletes the original source volume, deletes the transferred temporary
snapshot on the destination appliance, and returns success with provider
location desthost:3260,1 iqn.prefix.v1 0; a NexentaException from either
deletion is logged and does not prevent the success return, while a
has-children failure of the source-volume deletion raises VolumeIsBusy
instead (the destination deletion can only raise NexentaException, which
is always caught). -/
theorem C4_replication_success_path (dvr dstr : Option String) :
    migrate_volume cfg0
        (mkMigEnv none none none
          { get_child_props_origin := none, destroy_r := dvr, origin_destroy_r := none }
          dstr)
        vol0 (some caps0)
      = (postReplicationResult
           (delete_volume cfg0 "v1"
             { get_child_props_origin := none, destroy_r := dvr,
               origin_destroy_r := none }).1
           "desthost:3260,1 iqn.prefix.v1 0",
         [NmsCall.ssh_list_bindings,
          NmsCall.zvol_create_snapshot "cinder/v1" "cinder-migrate-snapshot-vid",
          NmsCall.appliance_execute
            (get_rrmgr_cmd "cinder/v1@cinder-migrate-snapshot-vid" "desthost:destpool"),
          NmsCall.snapshot_destroy "cinder/v1@cinder-migrate-snapshot-vid"]
           ++ (delete_volume cfg0 "v1"
                { get_child_props_origin := none, destroy_r := dvr,
                  origin_destroy_r := none }).2
           ++ postReplicationCalls
                (delete_volume cfg0 "v1"
                  { get_child_props_origin := none, destroy_r := dvr,
                    origin_destroy_r := none }).1
                "destpool/v1@cinder-migrate-snapshot-vid") ∧
    migrate_volume cfg0 (mkMigEnv none none none dvEnvNone none) vol0 (some caps0)
      = (Except.ok (true, some "desthost:3260,1 iqn.prefix.v1 0"),
         [NmsCall.ssh_list_bindings,
          NmsCall.zvol_create_snapshot "cinder/v1" "cinder-migrate-snapshot-vid",
          NmsCall.appliance_execute
            (get_rrmgr_cmd "cinder/v1@cinder-migrate-snapshot-vid" "desthost:destpool"),
          NmsCall.snapshot_destroy "cinder/v1@cinder-migrate-snapshot-vid",
          NmsCall.zvol_get_child_props "cinder/v1", NmsCall.zvol_destroy "cinder/v1",
          NmsCall.dst_snapshot_destroy "destpool/v1@cinder-migrate-snapshot-vid"]) ∧
    (migrate_volume cfg0
        (mkMigEnv none none none
          { get_child_props_origin := none, destroy_r := some "unexpected error",
            origin_destroy_r := none } none)
        vol0 (some caps0)).1
      = Except.ok (true, some "desthost:3260,1 iqn.prefix.v1 0") :=
  ⟨rfl, rfl, rfl⟩

/-- Export environment in which every resource already exists, so
create_export issues no creation call and succeeds. -/
def happyEnv : ExportEnv :=
  { list_targets := ["iqn.prefix.v1"]
    list_targetgroups := ["cinder/v1"]
    targetgroup_members := ["iqn.prefix.v1"]
    lu_exists_r := Except.ok true
    lu_shared_r := Except.ok 1
    create_target_r := none
    create_targetgroup_r := none
    add_targetgroup_member_r := none
    create_lu_r := none
    add_lun_mapping_entry_r := none }

/-- C8: whenever create_export succeeds, the provider-location string it
returns is byte-exact of the form portal-host, colon, portal port, the
literal comma-1-space, the configured target prefix concatenated with the
volume name, then space and zero. -/
theorem C8_provider_location_format (cfg : Config) (vol : String) (env : ExportEnv)
    (s : String) (h : (create_export cfg vol env).1 = Except.ok s) :
    s = cfg.nexenta_host ++ ":" ++ toString cfg.nexenta_iscsi_target_portal_port
        ++ ",1 " ++ (cfg.nexenta_target_prefix ++ vol) ++ " 0" := by
  unfold create_export at h
  rcases hde : _do_export cfg vol env false with ⟨r, t⟩
  rw [hde] at h
  cases r with
  | ok u =>
    injection h with h3
    rw [← h3]
    rfl
  | error e => exact Except.noConfusion h

/-- Witness for C8: with every resource present, create_export returns the
spec scenario string host1:3260,1 iqn.prefix.v1 0. -/
theorem C8_provider_location_format_witness :
    (create_export cfg0 "v1" happyEnv).1 = Except.ok "host1:3260,1 iqn.prefix.v1 0" ∧
    "host1:3260,1 iqn.prefix.v1 0"
      = cfg0.nexenta_host ++ ":" ++ toString cfg0.nexenta_iscsi_target_portal_port
        ++ ",1 " ++ (cfg0.nexenta_target_prefix ++ "v1") ++ " 0" :=
  ⟨rfl, C8_provider_location_format cfg0 "v1" happyEnv _ rfl⟩
